import Mathlib

/-!
Verification development for a minimal NTP client (ntp.py).

The program builds a 48-byte NTP v4 request, sends it over UDP to a list of
candidate servers, decodes the 48-byte reply into a Unix timestamp, compares
it with the local clock and, when asked to and when the offset exceeds a
threshold, writes the time back through a platform time-setter capability.

The embedding below is shallow and executable:
* byte buffers are lists of naturals (each byte < 256 where produced);
* timestamps are exact rationals (the Python code uses floats; the rational
  model captures the arithmetic the code performs);
* network traffic and the privileged clock-write primitives are oracles
  passed in as functions, and each operation additionally returns a trace of
  who was contacted / invoked, so that claims about "exactly once" and
  "never contacted" are statable.
-/

namespace Ntp

/-- NTP-to-Unix epoch delta in seconds, as computed in ntp.py from
datetime(1970,1,1) - datetime(1900,1,1): 70 years, 17 of them leap years,
each day 86400 seconds.  The source comments the value 2208988800. -/
def NTP_DELTA : ℕ := (70 * 365 + 17) * 86400

/-- Default candidate server list (DEFAULT_SERVERS in ntp.py). -/
def DEFAULT_SERVERS : List String :=
  ["pool.ntp.org", "time.google.com", "time.windows.com"]

/-- Runtime configuration, mirroring the NTPConfig dataclass:
ordered server list, UDP timeout in seconds, NTP protocol version, and the
sync threshold in seconds. -/
structure NTPConfig where
  servers : List String
  timeout : ℚ
  version : ℕ
  sync_threshold : ℚ

/-- The NTPConfig built from the dataclass defaults
(DEFAULT_SERVERS, DEFAULT_TIMEOUT = 5.0, version 4, SYNC_THRESHOLD = 1.0). -/
def defaultConfig : NTPConfig :=
  { servers := DEFAULT_SERVERS, timeout := 5, version := 4, sync_threshold := 1 }

/-- Big-endian 4-byte encoding of a 32-bit word, as produced by the struct
format code I with network byte order. -/
def u32be (v : ℕ) : List ℕ :=
  [v / 2 ^ 24 % 256, v / 2 ^ 16 % 256, v / 2 ^ 8 % 256, v % 256]

/-- NTPClient._build_packet.  first_byte packs leap indicator 0, the
configured version and mode 3 as (li << 6) | (vn << 3) | mode; the packet is
struct.pack of four single bytes (first_byte, 0, 0, 0) followed by eleven
zero 32-bit words.  struct.pack raises struct.error when a value does not
fit the format code B (one byte); the model returns none in that case. -/
def buildPacket (version : ℕ) : Option (List ℕ) :=
  let li := 0
  let mode := 3
  let first_byte := (li <<< 6) ||| (version <<< 3) ||| mode
  if first_byte < 256 then
    some ([first_byte, 0, 0, 0] ++ ((List.replicate 11 0).map u32be).flatten)
  else
    none

/-- Big-endian 32-bit read at a byte offset, as performed by struct.unpack
with format !II on data[40:48]. -/
def readU32be (data : List ℕ) (off : ℕ) : ℕ :=
  data.getD off 0 * 2 ^ 24 + data.getD (off + 1) 0 * 2 ^ 16 +
    data.getD (off + 2) 0 * 2 ^ 8 + data.getD (off + 3) 0

/-- Decoding part of NTPClient.get_ntp_time: reject buffers shorter than 48
bytes; otherwise read transmit-timestamp seconds at offset 40 and fraction
at offset 44, combine as seconds + fraction / 2^32 and shift to the Unix
epoch.  (When the length check passes, the slice data[40:48] has exactly 8
bytes, so the struct.error branch of the source is unreachable.) -/
def decodeNtpReply (data : List ℕ) : Option ℚ :=
  if data.length < 48 then
    none
  else
    let seconds := readU32be data 40
    let fraction := readU32be data 44
    let ntp_timestamp : ℚ := (seconds : ℚ) + (fraction : ℚ) / 2 ^ 32
    some (ntp_timestamp - (NTP_DELTA : ℚ))

/-- NTPClient.get_ntp_time with the network abstracted as an oracle:
net server is the datagram received from that server, or none for the
caught network failures (resolution failure, timeout, socket error), each
of which the source maps to returning None.  A received datagram is then
decoded by decodeNtpReply. -/
def getNtpTime (net : String → Option (List ℕ)) (server : String) : Option ℚ :=
  match net server with
  | none => none
  | some data => decodeNtpReply data

/-- Candidate recursion of NTPClient.query: try each server in order with
get_ntp_time, return the first non-None timestamp.  The second component
records, in order, the servers actually contacted. -/
def queryList (net : String → Option (List ℕ)) : List String → Option ℚ × List String
  | [] => (none, [])
  | srv :: rest =>
    match getNtpTime net srv with
    | some ts => (some ts, [srv])
    | none =>
      let r := queryList net rest
      (r.1, srv :: r.2)

/-- NTPClient.query: candidates = [server] if server else cfg.servers.
Python truthiness makes both None and the empty string fall back to the
configured list.  Returns the first timestamp obtained plus the trace of
servers contacted; (none, trace) models returning None (the
all-servers-unreachable outcome). -/
def query (net : String → Option (List ℕ)) (cfg : NTPConfig)
    (server : Option String) : Option ℚ × List String :=
  let candidates :=
    match server with
    | some s => if s = "" then cfg.servers else [s]
    | none => cfg.servers
  queryList net candidates

/-- The clock comparator of NTPClient.sync: diff = abs(ntp_ts - local_ts). -/
def clockOffset (serverTs localTs : ℚ) : ℚ := |serverTs - localTs|

/-- NTPClient.sync with time.time() passed in as local_ts and the optional
TimeSetter capability as an optional pure function.  The second component
lists the timestamps the time setter was invoked with (so [] means the
clock writer was never invoked).  Mirrors the source: query; on None return
False; compute diff; if set_system: succeed when diff is within the
threshold, fail when no capability is available, otherwise return the
writer's boolean; if not set_system, succeed. -/
def sync (net : String → Option (List ℕ)) (local_ts : ℚ) (cfg : NTPConfig)
    (server : Option String) (set_system : Bool)
    (time_setter : Option (ℚ → Bool)) : Bool × List ℚ :=
  match (query net cfg server).1 with
  | none => (false, [])
  | some ntp_ts =>
    let diff := clockOffset ntp_ts local_ts
    if set_system then
      if diff ≤ cfg.sync_threshold then
        (true, [])
      else
        match time_setter with
        | none => (false, [])
        | some setter => (setter ntp_ts, [ntp_ts])
    else
      (true, [])

/-- The two strategies of LinuxTimeSetter. -/
inductive LinuxStrategy
  | viaLibc
  | viaDateCmd
deriving DecidableEq

/-- LinuxTimeSetter.set_system_time: try _set_time_via_libc first and fall
back to _set_time_via_date_cmd only when it fails.  The outcomes of the two
privileged primitives are oracles (libcSets, dateCmdSets); the second
component records which strategies were attempted, in order. -/
def linuxSetSystemTime (libcSets dateCmdSets : ℚ → Bool) (unix_ts : ℚ) :
    Bool × List LinuxStrategy :=
  if libcSets unix_ts then
    (true, [LinuxStrategy.viaLibc])
  else
    (dateCmdSets unix_ts, [LinuxStrategy.viaLibc, LinuxStrategy.viaDateCmd])

/-! Helper lemmas. -/

/-- Right shift distributes over bitwise or. -/
theorem or_shiftRight (a b n : ℕ) : (a ||| b) >>> n = a >>> n ||| b >>> n := by
  apply Nat.eq_of_testBit_eq
  intro i
  simp [Nat.testBit_shiftRight, Nat.testBit_or]

/-- Walking a list of servers that all fail yields no timestamp after
contacting every one of them, in order. -/
theorem queryList_all_none (net : String → Option (List ℕ)) (l : List String)
    (hall : ∀ x ∈ l, getNtpTime net x = none) :
    queryList net l = (none, l) := by
  induction l with
  | nil => rfl
  | cons a t ih =>
    have ha := hall a (by simp)
    have ht := ih (fun x hx => hall x (by simp [hx]))
    simp [queryList, ha, ht]

/-- Walking a server list whose prefix fails and whose next entry succeeds
returns that entry's timestamp, having contacted exactly the failing prefix
plus the succeeding server and none of the later ones. -/
theorem queryList_first_success (net : String → Option (List ℕ))
    (pre post : List String) (srv : String) (ts : ℚ)
    (hpre : ∀ x ∈ pre, getNtpTime net x = none)
    (hsrv : getNtpTime net srv = some ts) :
    queryList net (pre ++ srv :: post) = (some ts, pre ++ [srv]) := by
  induction pre with
  | nil => simp [queryList, hsrv]
  | cons a t ih =>
    have ha := hpre a (by simp)
    have ht := ih (fun x hx => hpre x (by simp [hx]))
    simp [queryList, ha, ht]

/-! Claim theorems. -/

/-- C1: in write mode, when the computed offset exceeds the configured
threshold, sync with no TimeSetter capability fails and invokes no writer,
and sync with a TimeSetter invokes it exactly once, with the queried server
timestamp, and returns exactly the boolean the writer returned. -/
theorem sync_write_mode_over_threshold (net : String → Option (List ℕ))
    (local_ts : ℚ) (cfg : NTPConfig) (server : Option String) (ts : ℚ)
    (hq : (query net cfg server).1 = some ts)
    (hth : cfg.sync_threshold < clockOffset ts local_ts) :
    sync net local_ts cfg server true none = (false, []) ∧
    ∀ setter : ℚ → Bool,
      sync net local_ts cfg server true (some setter) = (setter ts, [ts]) := by
  have hn : ¬ clockOffset ts local_ts ≤ cfg.sync_threshold := not_le.mpr hth
  refine ⟨?_, fun setter => ?_⟩ <;> simp [sync, hq, hn]

/-- Witness for C1: a network where every server replies with 48 zero bytes
decodes to timestamp -2208988800; with local clock 0 the offset exceeds the
default threshold 1, sync without a capability fails with no invocation,
and sync with an always-true writer returns true after exactly one
invocation with the queried timestamp. -/
theorem sync_write_mode_over_threshold_witness :
    (query (fun _ => some (List.replicate 48 0)) defaultConfig none).1 =
        some (-(2208988800 : ℚ)) ∧
    defaultConfig.sync_threshold < clockOffset (-(2208988800 : ℚ)) 0 ∧
    sync (fun _ => some (List.replicate 48 0)) 0 defaultConfig none true none =
        (false, []) ∧
    sync (fun _ => some (List.replicate 48 0)) 0 defaultConfig none true
        (some fun _ => true) = (true, [-(2208988800 : ℚ)]) := by
  have h40 : readU32be (List.replicate 48 0) 40 = 0 := rfl
  have h44 : readU32be (List.replicate 48 0) 44 = 0 := rfl
  have hg : getNtpTime (fun _ : String => some (List.replicate 48 0))
      "pool.ntp.org" = some (-(2208988800 : ℚ)) := by
    simp only [getNtpTime, decodeNtpReply]
    rw [if_neg (by decide), h40, h44]
    norm_num [NTP_DELTA]
  have hq : (query (fun _ : String => some (List.replicate 48 0))
      defaultConfig none).1 = some (-(2208988800 : ℚ)) := by
    have e : query (fun _ : String => some (List.replicate 48 0)) defaultConfig none =
        queryList (fun _ : String => some (List.replicate 48 0))
          ("pool.ntp.org" :: ["time.google.com", "time.windows.com"]) := rfl
    rw [e]
    simp only [queryList]
    rw [hg]
  have hth : defaultConfig.sync_threshold < clockOffset (-(2208988800 : ℚ)) 0 := by
    norm_num [clockOffset, defaultConfig]
  obtain ⟨h1, h2⟩ := sync_write_mode_over_threshold _ _ _ _ _ hq hth
  exact ⟨hq, hth, h1, by simpa using h2 (fun _ => true)⟩

/-- C2: in write mode, whenever the computed offset is at most the
configured threshold, sync succeeds and the clock writer is never
invoked, whatever capability is passed. -/
theorem sync_write_mode_within_threshold (net : String → Option (List ℕ))
    (local_ts : ℚ) (cfg : NTPConfig) (server : Option String) (ts : ℚ)
    (time_setter : Option (ℚ → Bool))
    (hq : (query net cfg server).1 = some ts)
    (hle : clockOffset ts local_ts ≤ cfg.sync_threshold) :
    sync net local_ts cfg server true time_setter = (true, []) := by
  simp [sync, hq, hle]

/-- Witness for C2: with the 48-zero-bytes network, a local clock half a
second away from the queried timestamp and the default threshold 1,
write-mode sync succeeds without consulting the (always-false) writer. -/
theorem sync_write_mode_within_threshold_witness :
    (query (fun _ => some (List.replicate 48 0)) defaultConfig none).1 =
        some (-(2208988800 : ℚ)) ∧
    clockOffset (-(2208988800 : ℚ)) (-(2208988800 : ℚ) - 1 / 2) ≤
        defaultConfig.sync_threshold ∧
    sync (fun _ => some (List.replicate 48 0)) (-(2208988800 : ℚ) - 1 / 2)
        defaultConfig none true (some fun _ => false) = (true, []) := by
  have h40 : readU32be (List.replicate 48 0) 40 = 0 := rfl
  have h44 : readU32be (List.replicate 48 0) 44 = 0 := rfl
  have hg : getNtpTime (fun _ : String => some (List.replicate 48 0))
      "pool.ntp.org" = some (-(2208988800 : ℚ)) := by
    simp only [getNtpTime, decodeNtpReply]
    rw [if_neg (by decide), h40, h44]
    norm_num [NTP_DELTA]
  have hq : (query (fun _ : String => some (List.replicate 48 0))
      defaultConfig none).1 = some (-(2208988800 : ℚ)) := by
    have e : query (fun _ : String => some (List.replicate 48 0)) defaultConfig none =
        queryList (fun _ : String => some (List.replicate 48 0))
          ("pool.ntp.org" :: ["time.google.com", "time.windows.com"]) := rfl
    rw [e]
    simp only [queryList]
    rw [hg]
  have hle : clockOffset (-(2208988800 : ℚ)) (-(2208988800 : ℚ) - 1 / 2) ≤
      defaultConfig.sync_threshold := by
    norm_num [clockOffset, defaultConfig, abs_le]
  exact ⟨hq, hle,
    sync_write_mode_within_threshold _ _ _ _ _ _ hq hle⟩

/-- C3 (amended): query tries exactly the single override server when a
non-empty override is given, returning whatever get_ntp_time yields for it;
without an override it tries the configured servers in list order,
returning the timestamp of the first server that yields one and contacting
no later server; if every candidate fails, query yields no timestamp after
contacting all of them. -/
theorem query_fallback_order (net : String → Option (List ℕ)) (cfg : NTPConfig) :
    (∀ s : String, s ≠ "" → query net cfg (some s) = (getNtpTime net s, [s])) ∧
    (∀ pre post srv ts, cfg.servers = pre ++ srv :: post →
      (∀ x ∈ pre, getNtpTime net x = none) → getNtpTime net srv = some ts →
      query net cfg none = (some ts, pre ++ [srv])) ∧
    ((∀ x ∈ cfg.servers, getNtpTime net x = none) →
      query net cfg none = (none, cfg.servers)) := by
  refine ⟨fun s hs => ?_, fun pre post srv ts hcfg hpre hsrv => ?_, fun hall => ?_⟩
  · simp only [query, if_neg hs]
    cases h : getNtpTime net s <;> simp [queryList, h]
  · have e : query net cfg none = queryList net cfg.servers := rfl
    rw [e, hcfg]
    exact queryList_first_success net pre post srv ts hpre hsrv
  · exact queryList_all_none net cfg.servers hall

/-- Witness for C3: with servers a, b, c, d where only c answers (48 zero
bytes), an override x is the only server contacted; without an override the
walk stops at c having contacted a, b, c and never d; and on the failing
sublist a, b alone every server is contacted and no timestamp results. -/
theorem query_fallback_order_witness :
    query (fun s => if s = "c" then some (List.replicate 48 0) else none)
        { servers := ["a", "b", "c", "d"], timeout := 5, version := 4,
          sync_threshold := 1 } (some ("x")) =
      (getNtpTime (fun s => if s = "c" then some (List.replicate 48 0) else none)
        "x", ["x"]) ∧
    query (fun s => if s = "c" then some (List.replicate 48 0) else none)
        { servers := ["a", "b", "c", "d"], timeout := 5, version := 4,
          sync_threshold := 1 } none =
      (some (-(2208988800 : ℚ)), ["a", "b", "c"]) ∧
    query (fun s => if s = "c" then some (List.replicate 48 0) else none)
        { servers := ["a", "b"], timeout := 5, version := 4,
          sync_threshold := 1 } none =
      (none, ["a", "b"]) := by
  have h40 : readU32be (List.replicate 48 0) 40 = 0 := rfl
  have h44 : readU32be (List.replicate 48 0) 44 = 0 := rfl
  have hd : decodeNtpReply (List.replicate 48 0) = some (-(2208988800 : ℚ)) := by
    simp only [decodeNtpReply]
    rw [if_neg (by decide), h40, h44]
    norm_num [NTP_DELTA]
  have hc : getNtpTime (fun s : String =>
      if s = "c" then some (List.replicate 48 0) else none) "c" =
      some (-(2208988800 : ℚ)) :=
    Trans.trans
      (show getNtpTime (fun s : String =>
          if s = "c" then some (List.replicate 48 0) else none) "c" =
          decodeNtpReply (List.replicate 48 0) from rfl) hd
  have hpre : ∀ x ∈ (["a", "b"] : List String),
      getNtpTime (fun s : String =>
        if s = "c" then some (List.replicate 48 0) else none) x = none := by
    intro x hx
    fin_cases hx <;> rfl
  obtain ⟨p1, p2, p3⟩ := query_fallback_order
    (fun s : String => if s = "c" then some (List.replicate 48 0) else none)
    { servers := ["a", "b", "c", "d"], timeout := 5, version := 4,
      sync_threshold := 1 }
  obtain ⟨q1, q2, q3⟩ := query_fallback_order
    (fun s : String => if s = "c" then some (List.replicate 48 0) else none)
    { servers := ["a", "b"], timeout := 5, version := 4, sync_threshold := 1 }
  refine ⟨p1 ("x") (by decide), ?_, q3 hpre⟩
  simpa using p2 ["a", "b"] ["d"] "c" (-(2208988800 : ℚ)) rfl hpre hc

/-- Counterexample for C3 as frozen: the empty string is a given override
server, and a network on which that server does answer (48 zero bytes, so
get_ntp_time yields a timestamp); yet with an empty configured list, query
with this override contacts no server at all and yields no timestamp,
because the Python truthiness test treats the empty string like None. -/
theorem query_empty_override_counterexample :
    getNtpTime (fun s : String =>
      if s = "" then some (List.replicate 48 0) else none) "" =
      some (-(2208988800 : ℚ)) ∧
    query (fun s : String =>
        if s = "" then some (List.replicate 48 0) else none)
      { servers := [], timeout := 5, version := 4, sync_threshold := 1 }
      (some ("")) = (none, []) := by
  have h40 : readU32be (List.replicate 48 0) 40 = 0 := rfl
  have h44 : readU32be (List.replicate 48 0) 44 = 0 := rfl
  have hd : decodeNtpReply (List.replicate 48 0) = some (-(2208988800 : ℚ)) := by
    simp only [decodeNtpReply]
    rw [if_neg (by decide), h40, h44]
    norm_num [NTP_DELTA]
  exact ⟨Trans.trans
    (show getNtpTime (fun s : String =>
        if s = "" then some (List.replicate 48 0) else none) "" =
        decodeNtpReply (List.replicate 48 0) from rfl) hd, rfl⟩

/-- C4: for every received buffer of length at least 48 bytes, decoding
returns the Unix timestamp equal to the big-endian 32-bit unsigned integer
at byte offset 40, plus the big-endian 32-bit unsigned integer at byte
offset 44 divided by 2^32, minus the constant 2208988800. -/
theorem decode_timestamp_formula (data : List ℕ) (h : 48 ≤ data.length) :
    decodeNtpReply data =
      some (((data.getD 40 0 : ℚ) * 2 ^ 24 + (data.getD 41 0 : ℚ) * 2 ^ 16 +
              (data.getD 42 0 : ℚ) * 2 ^ 8 + (data.getD 43 0 : ℚ) +
             ((data.getD 44 0 : ℚ) * 2 ^ 24 + (data.getD 45 0 : ℚ) * 2 ^ 16 +
              (data.getD 46 0 : ℚ) * 2 ^ 8 + (data.getD 47 0 : ℚ)) / 2 ^ 32) -
            2208988800) := by
  simp only [decodeNtpReply, readU32be]
  rw [if_neg (by omega)]
  congr 1
  push_cast
  norm_num [NTP_DELTA]

/-- Witness for C4: a 48-byte all-zero reply decodes to the timestamp
0 + 0 / 2^32 - 2208988800, that is -2208988800. -/
theorem decode_timestamp_formula_witness :
    48 ≤ (List.replicate 48 (0 : ℕ)).length ∧
    decodeNtpReply (List.replicate 48 0) = some (-(2208988800 : ℚ)) := by
  have h := decode_timestamp_formula (List.replicate 48 0) (by decide)
  have g40 : (List.replicate 48 (0 : ℕ)).getD 40 0 = 0 := rfl
  have g41 : (List.replicate 48 (0 : ℕ)).getD 41 0 = 0 := rfl
  have g42 : (List.replicate 48 (0 : ℕ)).getD 42 0 = 0 := rfl
  have g43 : (List.replicate 48 (0 : ℕ)).getD 43 0 = 0 := rfl
  have g44 : (List.replicate 48 (0 : ℕ)).getD 44 0 = 0 := rfl
  have g45 : (List.replicate 48 (0 : ℕ)).getD 45 0 = 0 := rfl
  have g46 : (List.replicate 48 (0 : ℕ)).getD 46 0 = 0 := rfl
  have g47 : (List.replicate 48 (0 : ℕ)).getD 47 0 = 0 := rfl
  rw [g40, g41, g42, g43, g44, g45, g46, g47] at h
  refine ⟨by decide, ?_⟩
  rw [h]
  norm_num

/-- C5: every received buffer shorter than 48 bytes decodes to the
malformed-reply failure; no timestamp, not even a partial one, is
produced. -/
theorem decode_short_reply (data : List ℕ) (h : data.length < 48) :
    decodeNtpReply data = none := by
  simp only [decodeNtpReply]
  rw [if_pos h]

/-- Witness for C5: the empty buffer is shorter than 48 bytes and decodes
to none. -/
theorem decode_short_reply_witness :
    ([] : List ℕ).length < 48 ∧ decodeNtpReply [] = none :=
  ⟨by decide, decode_short_reply [] (by decide)⟩

/-- C6 (amended): for every configuration whose version value is below 32,
encoding the request produces exactly 48 bytes whose byte 0 equals
(0 <<< 6) ||| (version <<< 3) ||| 3 and whose remaining 47 bytes are all
zero.  (For versions of 32 and up the byte pack fails; see the
counterexample.) -/
theorem buildPacket_small_version (v : ℕ) (h : v < 32) :
    buildPacket v =
      some (((0 <<< 6) ||| (v <<< 3) ||| 3) :: List.replicate 47 0) ∧
    (((0 <<< 6) ||| (v <<< 3) ||| 3) :: List.replicate 47 (0 : ℕ)).length = 48 := by
  interval_cases v <;> exact ⟨by decide, by decide⟩

/-- Witness for C6 at the configured version 4: the packet is byte
(0 <<< 6) ||| (4 <<< 3) ||| 3 = 35 followed by 47 zero bytes. -/
theorem buildPacket_small_version_witness :
    (4 : ℕ) < 32 ∧
    buildPacket 4 =
      some (((0 <<< 6) ||| ((4 : ℕ) <<< 3) ||| 3) :: List.replicate 47 0) :=
  ⟨by decide, (buildPacket_small_version 4 (by decide)).1⟩

/-- Counterexample for C6 as frozen: at version 32 the packed first byte
would be 259, which does not fit the one-byte format code, so encoding
produces no packet at all rather than a 48-byte one. -/
theorem buildPacket_version32_counterexample : buildPacket 32 = none := by
  decide

/-- C7: the Unix-family set_system_time attempts the native clock_settime
strategy first, attempts the external date-command fallback only when the
native strategy fails, and returns success exactly when either attempted
strategy succeeds (failure only when both fail). -/
theorem linuxSetSystemTime_fallback_policy (libcSets dateCmdSets : ℚ → Bool)
    (ts : ℚ) :
    (linuxSetSystemTime libcSets dateCmdSets ts).2.head? =
        some LinuxStrategy.viaLibc ∧
    (LinuxStrategy.viaDateCmd ∈ (linuxSetSystemTime libcSets dateCmdSets ts).2 ↔
        libcSets ts = false) ∧
    (linuxSetSystemTime libcSets dateCmdSets ts).1 =
        (libcSets ts || dateCmdSets ts) := by
  cases hA : libcSets ts <;> simp [linuxSetSystemTime, hA]

/-- C8: the clock offset computed by sync is the absolute difference of the
two timestamps; it is symmetric in its arguments, equal arguments give
offset 0, and comparing 1005 with 1000 gives 5. -/
theorem clockOffset_spec :
    (∀ s l : ℚ, clockOffset s l = |s - l| ∧ clockOffset s l = clockOffset l s) ∧
    (∀ t : ℚ, clockOffset t t = 0) ∧
    clockOffset 1005 1000 = 5 := by
  refine ⟨fun s l => ⟨rfl, ?_⟩, fun t => ?_, ?_⟩
  · unfold clockOffset
    exact abs_sub_comm s l
  · simp [clockOffset]
  · norm_num [clockOffset]

/-- C9: request encoding is well-behaved only for versions 0 through 7; for
versions 8 through 31 it still returns a 48-byte packet but byte 0's
leap-indicator bits (bits 6 and 7) carry the high bits of the unmasked
version and are hence nonzero, and for versions 32 and up the byte pack
fails and no packet is produced. -/
theorem buildPacket_version_overflow (v : ℕ) :
    (8 ≤ v → v ≤ 31 →
      buildPacket v =
        some (((0 <<< 6) ||| (v <<< 3) ||| 3) :: List.replicate 47 0) ∧
      (((0 <<< 6) ||| (v <<< 3) ||| 3) :: List.replicate 47 (0 : ℕ)).length = 48 ∧
      ((0 <<< 6) ||| (v <<< 3) ||| 3) >>> 6 = v >>> 3 ∧ v >>> 3 ≠ 0) ∧
    (32 ≤ v → buildPacket v = none) := by
  constructor
  · intro h8 h31
    interval_cases v <;> exact ⟨by decide, by decide, by decide, by decide⟩
  · intro h32
    have e : ((0 <<< 6) ||| (v <<< 3) ||| 3) >>> 3 = v := by
      rw [or_shiftRight, or_shiftRight]
      simp [Nat.shiftLeft_shiftRight]
    simp only [buildPacket]
    rw [if_neg]
    intro hlt
    have hv : v < 32 := by
      rw [← e, Nat.shiftRight_eq_div_pow]
      omega
    omega

/-- Witness for C9 at versions 12 and 40: version 12 yields a 48-byte
packet whose first byte has leap-indicator bits 12 >>> 3 = 1 ≠ 0, and
version 40 yields no packet. -/
theorem buildPacket_version_overflow_witness :
    ((8 : ℕ) ≤ 12 ∧ (12 : ℕ) ≤ 31 ∧
      buildPacket 12 =
        some (((0 <<< 6) ||| ((12 : ℕ) <<< 3) ||| 3) :: List.replicate 47 0) ∧
      ((0 <<< 6) ||| ((12 : ℕ) <<< 3) ||| 3) >>> 6 = (12 : ℕ) >>> 3 ∧
      (12 : ℕ) >>> 3 ≠ 0) ∧
    ((32 : ℕ) ≤ 40 ∧ buildPacket 40 = none) := by
  have h1 := (buildPacket_version_overflow 12).1 (by decide) (by decide)
  have h2 := (buildPacket_version_overflow 40).2 (by decide)
  exact ⟨⟨by decide, by decide, h1.1, h1.2.2.1, h1.2.2.2⟩, by decide, h2⟩

/-- C10: with an empty configured server list and no override, query yields
no timestamp and contacts no server. -/
theorem query_empty_server_list (net : String → Option (List ℕ)) (t : ℚ)
    (v : ℕ) (thr : ℚ) :
    query net
      { servers := [], timeout := t, version := v, sync_threshold := thr }
      none = (none, []) := rfl

end Ntp
